import Mathlib

/-!
Shallow embedding of the recipe-catalog program: the catalog loader and the
tag search engine of queshi.py, and the tag-vocabulary / suggestion logic of
gui_queshi.py.

Python values that can appear in a record's tags field are modelled by
PyVal; records (the dicts of the data file) are modelled as association
lists; the pandas DataFrame built from them is modelled as the list of
records plus pandas' missing-value convention (a key absent from a record
reads as the float NaN, and a column exists iff some record has the key).
Python strings are modelled as Lean strings, with character-level helpers
(strip, lower, substring test, codepoint order) defined structurally so
that every definition evaluates.  Char.toLower models str.lower and
Char.isWhitespace models str.strip on the character ranges this program
exercises (ASCII and CJK, which both treat identically).
-/

/-- A scalar Python value that can appear as (or inside) a record's tags
field: a string, None, the float NaN (pandas' placeholder for a missing
field), or an integer. -/
inductive PyScalar where
  | str (s : String)
  | pyNone
  | nan
  | int (n : Int)
deriving DecidableEq

/-- A Python value of a tags field: a scalar or a list of scalars. -/
inductive PyVal where
  | scalar (v : PyScalar)
  | list (l : List PyScalar)
deriving DecidableEq

/-- Python str() of a scalar: identity on strings, "None", "nan",
decimal digits for integers. -/
def pyScalarStr : PyScalar → String
  | PyScalar.str s => s
  | PyScalar.pyNone => "None"
  | PyScalar.nan => "nan"
  | PyScalar.int n => toString n

/-- Python repr() of a scalar (strings are quoted). -/
def pyScalarRepr : PyScalar → String
  | PyScalar.str s => "\x27" ++ s ++ "\x27"
  | v => pyScalarStr v

/-- Python str() of a tags value. -/
def pyStr : PyVal → String
  | PyVal.scalar v => pyScalarStr v
  | PyVal.list l => "[" ++ String.intercalate ", " (l.map pyScalarRepr) ++ "]"

/-- A record of the data file: the Python dict, as an association list from
field names to values.  Fields other than tags are opaque. -/
abbrev Record := List (String × PyVal)

/-- The tags value a record shows in the DataFrame's tags column: the dict
value when the key is present, else pandas' NaN fill for missing fields. -/
def tagsOf (r : Record) : PyVal :=
  (List.lookup "tags" r).getD (PyVal.scalar PyScalar.nan)

/-- Whether the DataFrame built from these records has a tags column at
all: pandas creates the column iff some record dict has the key.
Indexing a missing column ("checkpoint[\x27tags\x27]") raises KeyError. -/
def hasTagsColumn (c : List Record) : Bool :=
  c.any (fun r => (List.lookup "tags" r).isSome)

/-- Word characters of the regex class backslash-w as exercised by this
program: ASCII alphanumerics, the underscore, and CJK unified ideographs.
(Python's class covers further Unicode scripts; the program's data uses
only these ranges.)  Used by gui_queshi.py line 287,
"re.split(r..., item)" splitting on runs of NON-word characters. -/
def isWordChar (c : Char) : Bool :=
  c.isAlphanum || c == '_' || (0x4E00 ≤ c.toNat && c.toNat ≤ 0x9FFF)

/-- Maximal runs of characters satisfying p, in order.  wordRunsAux l acc
processes l with acc holding the current run reversed. -/
def wordRunsAux (p : Char → Bool) : List Char → List Char → List (List Char)
  | [], acc => if acc = [] then [] else [acc.reverse]
  | c :: rest, acc =>
    if p c then wordRunsAux p rest (c :: acc)
    else if acc = [] then wordRunsAux p rest []
    else acc.reverse :: wordRunsAux p rest []

/-- Maximal runs of characters satisfying p. -/
def wordRuns (p : Char → Bool) (l : List Char) : List (List Char) :=
  wordRunsAux p l []

/-- The tokens one tags value contributes to the tag vocabulary, embedding
the loop body of gui_queshi.py _update_tag_completer lines 283-297:
None is skipped; a string is split on runs of non-word characters (the
splitting already yields exactly the stripped non-empty pieces, since word
characters are never whitespace); a list contributes str() of each
element; any other value is not iterable, so the except branch adds str()
of the value itself. -/
def tagTokens : PyVal → List String
  | PyVal.scalar PyScalar.pyNone => []
  | PyVal.scalar (PyScalar.str s) => (wordRuns isWordChar s.toList).map List.asString
  | PyVal.list l => l.map pyScalarStr
  | PyVal.scalar v => [pyScalarStr v]

/-- Codepoint-lexicographic comparison of character lists, as Python
compares strings. -/
def charListLe : List Char → List Char → Bool
  | [], _ => true
  | _ :: _, [] => false
  | a :: as, b :: bs =>
    if a.toNat < b.toNat then true
    else if b.toNat < a.toNat then false
    else charListLe as bs

/-- Codepoint-lexicographic order on strings (Python's string order). -/
def strLe (a b : String) : Bool := charListLe a.toList b.toList

/-- Python sorted(set(l)): the distinct elements of l in codepoint order.
Models "tags = sorted(tags_set)" of gui_queshi.py line 300. -/
def sortedDedup (l : List String) : List String :=
  List.insertionSort (fun a b => strLe a b = true) l.dedup

/-- The tag vocabulary _update_tag_completer builds from the current
checkpoint (gui_queshi.py lines 276-300): empty when no data is loaded or
the DataFrame is empty; empty when the tags column is missing (the
KeyError is swallowed by the blanket except); otherwise the sorted
deduplicated union of every record's tokens. -/
def buildVocabulary : Option (List Record) → List String
  | Option.none => []
  | Option.some c =>
    if c.isEmpty then []
    else if hasTagsColumn c then
      sortedDedup (List.flatten (c.map (fun r => tagTokens (tagsOf r))))
    else []

/-- Modelled from the spec: the claim's own tokenizer, which splits a
string-valued tags field on every run of non-ALPHANUMERIC characters
(so the underscore is a delimiter), stringifies the elements of a
sequence-valued field, and skips an absent or null field.  Defined only
to compare with the source-derived tagTokens / buildVocabulary. -/
def specIsAlnum (c : Char) : Bool :=
  c.isAlphanum || (0x4E00 ≤ c.toNat && c.toNat ≤ 0x9FFF)

/-- Modelled from the spec: per-record tokens under the claim's
non-alphanumeric splitting.  See specIsAlnum. -/
def specTagTokens : Option PyVal → List String
  | Option.none => []
  | Option.some (PyVal.scalar PyScalar.pyNone) => []
  | Option.some (PyVal.scalar (PyScalar.str s)) =>
      (wordRuns specIsAlnum s.toList).map List.asString
  | Option.some (PyVal.list l) => l.map pyScalarStr
  | Option.some (PyVal.scalar v) => [pyScalarStr v]

/-- Modelled from the spec: the vocabulary under the claim's tokenizer. -/
def specBuildVocabulary (c : List Record) : List String :=
  sortedDedup (List.flatten (c.map (fun r => specTagTokens (List.lookup "tags" r))))

/-- Whether needle occurs as a contiguous substring of hay (Python's
"needle in hay" on strings). -/
def listContains (needle : List Char) : List Char → Bool
  | [] => needle.isEmpty
  | b :: bs => List.isPrefixOf needle (b :: bs) || listContains needle bs

/-- The inner has_tag of queshi.py search_by_tag (lines 66-70): Python's
"tag in tags" under try/except.  On a string this is substring
containment; on a list it is membership, i.e. equality of the string tag
with some element; on any value where the test raises (None, NaN, a
number) the except branch returns False. -/
def has_tag (tag : String) : PyVal → Bool
  | PyVal.scalar (PyScalar.str s) => listContains tag.toList s.toList
  | PyVal.list l => l.any (fun v => v == PyScalar.str tag)
  | _ => false

/-- An error a core operation can surface: the KeyError pandas raises when
a missing column is indexed, or a failure propagated from loading. -/
inductive LoadFailure where
  | parseError (cause : String)
deriving DecidableEq

/-- An error search_by_tag can surface. -/
inductive PyErr where
  | keyError
  | loadFailed (f : LoadFailure)
deriving DecidableEq

/-- The process environment the loader reads: PyInstaller state, the
directories the source inspects, which paths exist, each path's content,
and the result of executing a content as Python to obtain the dishes list
(Option.none models the exec raising). -/
structure PyEnv where
  frozen : Bool
  meipass : Option String
  exeDir : String
  scriptDir : Option String
  cwd : String
  pathExists : String → Bool
  content : String → String
  parse : String → Option (List Record)

/-- os.path.join of a directory and a file name. -/
def pathJoin (d name : String) : String :=
  if d = "" then name else d ++ "/" ++ name

/-- The candidate directory list _find_resource builds (queshi.py lines
12-27): when frozen, _MEIPASS if truthy then the executable's directory;
then the script directory if truthy; then the current working
directory. -/
def candidatesRaw (e : PyEnv) : List String :=
  (if e.frozen then
    (match e.meipass with
     | Option.some m => if m = "" then [] else [m]
     | Option.none => []) ++ [e.exeDir]
   else [])
  ++ (match e.scriptDir with
      | Option.some d => if d = "" then [] else [d]
      | Option.none => [])
  ++ [e.cwd]

/-- The search loop of _find_resource (queshi.py lines 29-35): skip falsy
directories, return the first joined path that exists. -/
def findFirst (ex : String → Bool) (name : String) : List String → Option String
  | [] => Option.none
  | d :: rest =>
    if d = "" then findFirst ex name rest
    else if ex (pathJoin d name) then Option.some (pathJoin d name)
    else findFirst ex name rest

/-- queshi.py _find_resource. -/
def findResource (e : PyEnv) (name : String) : Option String :=
  findFirst e.pathExists name (candidatesRaw e)

/-- queshi.py load_dishes: resolve dishes.txt via findResource, with a
fallback attempt next to the script; return an empty catalog when no file
exists; otherwise read and exec the content — a failing exec propagates
an exception that carries the underlying cause but nothing else
(load_dishes adds no path information to it). -/
def load_dishes (e : PyEnv) : Except LoadFailure (List Record) :=
  let go : String → Except LoadFailure (List Record) := fun p =>
    match e.parse (e.content p) with
    | Option.some recs => Except.ok recs
    | Option.none => Except.error (LoadFailure.parseError (e.content p))
  match findResource e "dishes.txt" with
  | Option.some p => go p
  | Option.none =>
    match e.scriptDir with
    | Option.some d =>
      let p := pathJoin d "dishes.txt"
      if e.pathExists p then go p else Except.ok []
    | Option.none => Except.ok []

/-- The filtering step of search_by_tag (queshi.py line 71):
checkpoint[checkpoint[tags-column].apply(has_tag)] — a KeyError when the
column is missing, else the order-preserving boolean-mask filter. -/
def searchFilter (tag : String) (c : List Record) : Except PyErr (List Record) :=
  if hasTagsColumn c then
    Except.ok (c.filter (fun r => has_tag tag (tagsOf r)))
  else Except.error PyErr.keyError

/-- queshi.py search_by_tag: when the checkpoint argument is None, load
the default catalog first, then filter it. -/
def search_by_tag (tag : String) (checkpoint : Option (List Record)) (e : PyEnv) :
    Except PyErr (List Record) :=
  match checkpoint with
  | Option.some c => searchFilter tag c
  | Option.none =>
    match load_dishes e with
    | Except.ok c => searchFilter tag c
    | Except.error f => Except.error (PyErr.loadFailed f)

/-- Python str.lower (on the character ranges this program exercises:
ASCII letters are lowered, CJK is untouched). -/
def pyLower (s : String) : String := (s.toList.map Char.toLower).asString

/-- Python str.strip: drop leading and trailing whitespace. -/
def pyStrip (s : String) : String :=
  ((s.toList.dropWhile Char.isWhitespace).reverse.dropWhile Char.isWhitespace).reverse.asString

/-- The suggestion filter of gui_queshi.py _show_tag_popup (lines
358-371): strip the query; keep every vocabulary entry when the stripped
query is empty, else every entry containing it case-insensitively.  The
popup receives all matches — nothing truncates this list. -/
def suggestTags (tagList : List String) (query : String) : List String :=
  let p := pyStrip query
  tagList.filter (fun t => (p == "") || listContains (pyLower p).toList (pyLower t).toList)

/-! Helper lemmas about the order, the sorted deduplication, the tokenizer
and the resolution loop. -/

theorem charListLe_total : ∀ a b, charListLe a b = true ∨ charListLe b a = true := by
  intro a
  induction a with
  | nil => intro b; exact Or.inl rfl
  | cons x xs ih =>
    intro b
    cases b with
    | nil => exact Or.inr rfl
    | cons y ys =>
      simp only [charListLe]
      rcases Nat.lt_trichotomy x.toNat y.toNat with h | h | h
      · left; simp [h]
      · have h1 : ¬ x.toNat < y.toNat := by omega
        have h2 : ¬ y.toNat < x.toNat := by omega
        simp only [if_neg h1, if_neg h2]
        exact ih ys
      · right; simp [h]

theorem charListLe_trans : ∀ a b c, charListLe a b = true → charListLe b c = true →
    charListLe a c = true := by
  intro a
  induction a with
  | nil => intro b c _ _; rfl
  | cons x xs ih =>
    intro b c hab hbc
    cases b with
    | nil => simp [charListLe] at hab
    | cons y ys =>
      cases c with
      | nil => simp [charListLe] at hbc
      | cons z zs =>
        simp only [charListLe] at hab hbc ⊢
        split_ifs at hab hbc ⊢ <;> first
          | rfl
          | omega
          | exact ih ys zs hab hbc

theorem strLe_total (a b : String) : strLe a b = true ∨ strLe b a = true :=
  charListLe_total a.toList b.toList

theorem strLe_trans {a b c : String} (h1 : strLe a b = true) (h2 : strLe b c = true) :
    strLe a c = true :=
  charListLe_trans a.toList b.toList c.toList h1 h2

theorem mem_sortedDedup (t : String) (l : List String) : t ∈ sortedDedup l ↔ t ∈ l := by
  unfold sortedDedup
  rw [(List.perm_insertionSort _ _).mem_iff, List.mem_dedup]

theorem sortedDedup_sorted (l : List String) :
    List.Sorted (fun a b => strLe a b = true) (sortedDedup l) :=
  @List.sorted_insertionSort _ _ _ ⟨strLe_total⟩ ⟨fun _ _ _ => strLe_trans⟩ _

theorem sortedDedup_nodup (l : List String) : (sortedDedup l).Nodup :=
  (List.perm_insertionSort _ _).nodup_iff.mpr (List.nodup_dedup l)

theorem wordRunsAux_sound (p : Char → Bool) :
    ∀ (l acc : List Char), (∀ c ∈ acc, p c = true) →
      ∀ t ∈ wordRunsAux p l acc, t ≠ [] ∧ ∀ c ∈ t, p c = true := by
  intro l
  induction l with
  | nil =>
    intro acc hacc t ht
    by_cases h : acc = []
    · simp [wordRunsAux, h] at ht
    · simp only [wordRunsAux, if_neg h, List.mem_singleton] at ht
      subst ht
      exact ⟨by simpa using h, fun c hc => hacc c (List.mem_reverse.mp hc)⟩
  | cons x rest ih =>
    intro acc hacc t ht
    simp only [wordRunsAux] at ht
    split at ht
    next hx =>
      refine ih (x :: acc) ?_ t ht
      intro c hc
      rcases List.mem_cons.mp hc with h | h
      · exact h ▸ hx
      · exact hacc c h
    next hx =>
      split at ht
      next ha => exact ih [] (by simp) t ht
      next ha =>
        rcases List.mem_cons.mp ht with h | h
        · subst h
          exact ⟨by simpa using ha, fun c hc => hacc c (List.mem_reverse.mp hc)⟩
        · exact ih [] (by simp) t h

theorem wordRuns_sound (p : Char → Bool) (l : List Char) :
    ∀ t ∈ wordRuns p l, t ≠ [] ∧ ∀ c ∈ t, p c = true :=
  wordRunsAux_sound p l [] (by simp)

theorem isWordChar_not_ws {c : Char} (h : isWordChar c = true) : c.isWhitespace = false := by
  by_contra hne
  have hw : c.isWhitespace = true := by
    cases hval : c.isWhitespace
    · exact absurd hval hne
    · rfl
  have hcase : ((c = ' ' ∨ c = '\t') ∨ c = '\x0d') ∨ c = '\n' := by
    simpa [Char.isWhitespace] using hw
  rcases hcase with ((h1 | h1) | h1) | h1 <;> subst h1 <;> exact absurd h (by decide)

theorem buildVocabulary_sorted (cp : Option (List Record)) :
    List.Sorted (fun a b => strLe a b = true) (buildVocabulary cp) := by
  cases cp with
  | none => simp [buildVocabulary]
  | some c =>
    simp only [buildVocabulary]
    split_ifs
    · simp
    · exact sortedDedup_sorted _
    · simp

theorem buildVocabulary_nodup (cp : Option (List Record)) : (buildVocabulary cp).Nodup := by
  cases cp with
  | none => simp [buildVocabulary]
  | some c =>
    simp only [buildVocabulary]
    split_ifs
    · simp
    · exact sortedDedup_nodup _
    · simp

theorem mem_buildVocabulary {c : List Record} (h : hasTagsColumn c = true) (t : String) :
    t ∈ buildVocabulary (Option.some c) ↔ ∃ r ∈ c, t ∈ tagTokens (tagsOf r) := by
  have hne : c.isEmpty = false := by
    cases c
    · simp [hasTagsColumn] at h
    · rfl
  simp only [buildVocabulary, hne, Bool.false_eq_true, if_false, h, if_true]
  rw [mem_sortedDedup]
  simp only [List.mem_flatten, List.mem_map]
  constructor
  · rintro ⟨l, ⟨r, hr, rfl⟩, htl⟩
    exact ⟨r, hr, htl⟩
  · rintro ⟨r, hr, htl⟩
    exact ⟨tagTokens (tagsOf r), ⟨r, hr, rfl⟩, htl⟩

theorem findFirst_eq (ex : String → Bool) (name : String) :
    ∀ l : List String, findFirst ex name l =
      List.find? ex ((l.filter (fun d => !(d == ""))).map (fun d => pathJoin d name)) := by
  intro l
  induction l with
  | nil => rfl
  | cons d rest ih =>
    by_cases hd : d = ""
    · subst hd
      simpa [findFirst] using ih
    · have hb : (d == "") = false := beq_eq_false_iff_ne.mpr hd
      simp only [findFirst, if_neg hd, List.filter_cons, hb, Bool.not_false, if_true,
        List.map_cons]
      by_cases hex : ex (pathJoin d name) = true
      · rw [if_pos hex, List.find?_cons_of_pos _ hex]
      · rw [if_neg hex, List.find?_cons_of_neg _ (by simpa using hex), ih]

theorem findFirst_none (ex : String → Bool) (name : String) :
    ∀ l : List String, (∀ d ∈ l, ex (pathJoin d name) = false) →
      findFirst ex name l = Option.none := by
  intro l
  induction l with
  | nil => intro _; rfl
  | cons d rest ih =>
    intro h
    simp only [findFirst]
    by_cases hd : d = ""
    · rw [if_pos hd]
      exact ih (fun x hx => h x (List.mem_cons_of_mem _ hx))
    · rw [if_neg hd, if_neg (by simp [h d (List.mem_cons_self d rest)])]
      exact ih (fun x hx => h x (List.mem_cons_of_mem _ hx))

/-! Concrete records and environments used by the claim instances. -/

/-- An environment with no resource file anywhere. -/
def env0 : PyEnv :=
  { frozen := false, meipass := Option.none, exeDir := "", scriptDir := Option.none,
    cwd := "", pathExists := fun _ => false, content := fun _ => "",
    parse := fun _ => Option.none }

/-- A record whose tags field is the delimiter-joined string "辣,下饭". -/
def recSpicy : Record :=
  [("name", PyVal.scalar (PyScalar.str "菜")), ("tags", PyVal.scalar (PyScalar.str "辣,下饭"))]

/-- A record with string tags "辣,下饭" (the first record of the spec's
vocabulary example). -/
def recA : Record := [("tags", PyVal.scalar (PyScalar.str "辣,下饭"))]

/-- A record with list tags ["下饭", "家常"] (the second record of the
spec's vocabulary example). -/
def recB : Record := [("tags", PyVal.list [PyScalar.str "下饭", PyScalar.str "家常"])]

/-- A record whose string tags contain an underscore between letters. -/
def recU : Record := [("tags", PyVal.scalar (PyScalar.str "a_b"))]

/-- A record whose list tags contain an element with surrounding spaces. -/
def recPad : Record := [("tags", PyVal.list [PyScalar.str " 家常 "])]

/-- A record whose list tags contain the empty string. -/
def recEmptyTag : Record := [("tags", PyVal.list [PyScalar.str ""])]

/-- A well-formed record with list tags ["x"]. -/
def recX : Record :=
  [("name", PyVal.scalar (PyScalar.str "a")), ("tags", PyVal.list [PyScalar.str "x"])]

/-- A record with no tags field at all. -/
def recNoTags : Record := [("name", PyVal.scalar (PyScalar.str "b"))]

/-- A record whose tags field is None. -/
def recNull : Record :=
  [("name", PyVal.scalar (PyScalar.str "n")), ("tags", PyVal.scalar PyScalar.pyNone)]

/-- A record whose list tags hold eleven distinct already-sorted labels. -/
def recEleven : Record :=
  [("tags", PyVal.list [PyScalar.str "t0", PyScalar.str "t1", PyScalar.str "t2",
    PyScalar.str "t3", PyScalar.str "t4", PyScalar.str "t5", PyScalar.str "t6",
    PyScalar.str "t7", PyScalar.str "t8", PyScalar.str "t9", PyScalar.str "u"])]

/-- A parser that fails exactly on the content "BAD". -/
def parseBad : String → Option (List Record) :=
  fun c => if c = "BAD" then Option.none else Option.some []

/-- Environment with a malformed dishes.txt next to the script at /a. -/
def env8a : PyEnv :=
  { frozen := false, meipass := Option.none, exeDir := "", scriptDir := Option.some "/a",
    cwd := "/w", pathExists := fun p => p == "/a/dishes.txt",
    content := fun _ => "BAD", parse := parseBad }

/-- Same malformed content, but the file lives at /b instead. -/
def env8b : PyEnv :=
  { env8a with scriptDir := Option.some "/b", pathExists := fun p => p == "/b/dishes.txt" }

/-- Environment whose dishes.txt in the working directory parses to the
one-record catalog [recX]. -/
def env9 : PyEnv :=
  { frozen := false, meipass := Option.none, exeDir := "", scriptDir := Option.none,
    cwd := "/w", pathExists := fun p => p == "/w/dishes.txt",
    content := fun _ => "D",
    parse := fun c => if c = "D" then Option.some [recX] else Option.none }

/-- A frozen environment with every candidate directory set but no file
anywhere. -/
def env5 : PyEnv :=
  { frozen := true, meipass := Option.some "/m", exeDir := "/e", scriptDir := Option.some "/s",
    cwd := "/w", pathExists := fun _ => false, content := fun _ => "",
    parse := fun _ => Option.none }

/-! The claims. -/

instance {ε α : Type} [DecidableEq ε] [DecidableEq α] : DecidableEq (Except ε α) := fun x y =>
  match x, y with
  | Except.ok a, Except.ok b =>
    if h : a = b then isTrue (by rw [h])
    else isFalse (by intro he; injection he; exact h ‹a = b›)
  | Except.ok _, Except.error _ => isFalse (by intro he; exact Except.noConfusion he)
  | Except.error _, Except.ok _ => isFalse (by intro he; exact Except.noConfusion he)
  | Except.error e, Except.error f =>
    if h : e = f then isTrue (by rw [h])
    else isFalse (by intro he; injection he; exact h ‹e = f›)

/-- C1, counterexample: the claim says search_by_tag returns exactly the
records whose normalized tag set contains the query as an exact member,
with no substring matching.  On a string-valued tags field the code's
"tag in tags" is substring containment: the record tagged "辣,下饭" is
returned for the query "下" although "下" is not a member of its
normalized tag set {"辣", "下饭"}; moreover on a catalog without a tags
column the search raises a KeyError instead of returning a result. -/
theorem c1_counterexample :
    search_by_tag "下" (Option.some [recSpicy]) env0 = Except.ok [recSpicy] ∧
    "下" ∉ tagTokens (tagsOf recSpicy) ∧
    search_by_tag "x" (Option.some [([] : Record)]) env0 = Except.error PyErr.keyError := by
  refine ⟨by decide, by decide, by decide⟩

/-- C1, amended: over a catalog that has a tags column, search_by_tag
returns Ok of the order-preserving subsequence of exactly those records
whose raw tags value passes Python's membership test "tag in tags" —
substring containment for a string-valued field, exact element equality
for a list-valued field, and no match for any other value. -/
theorem c1_amended (tag : String) (c : List Record) (e : PyEnv)
    (h : hasTagsColumn c = true) :
    ∃ res, search_by_tag tag (Option.some c) e = Except.ok res ∧
      List.Sublist res c ∧
      ∀ r, r ∈ res ↔ (r ∈ c ∧ has_tag tag (tagsOf r) = true) := by
  refine ⟨c.filter (fun r => has_tag tag (tagsOf r)), ?_, List.filter_sublist c, ?_⟩
  · simp [search_by_tag, searchFilter, h]
  · intro r; exact List.mem_filter

/-- C1, witness: the amended statement at the one-record catalog [recX]. -/
theorem c1_amended_witness :
    ∃ res, search_by_tag "x" (Option.some [recX]) env0 = Except.ok res ∧
      List.Sublist res [recX] ∧
      ∀ r, r ∈ res ↔ (r ∈ [recX] ∧ has_tag "x" (tagsOf r) = true) :=
  c1_amended "x" [recX] env0 (by decide)

/-- C2, counterexample: the claim splits string-valued tags on every run
of non-ALPHANUMERIC characters, but the code splits on the regex class of
non-WORD characters, for which the underscore is not a delimiter: for the
single record tagged "a_b" the code's vocabulary is ["a_b"] while the
claim's is ["a", "b"]. -/
theorem c2_counterexample :
    buildVocabulary (Option.some [recU]) = ["a_b"] ∧
    specBuildVocabulary [recU] = ["a", "b"] ∧
    buildVocabulary (Option.some [recU]) ≠ specBuildVocabulary [recU] := by
  refine ⟨by decide, by decide, by decide⟩

/-- C2, amended: over a catalog with a tags column, the vocabulary is the
codepoint-sorted duplicate-free union of the per-record tokens, where a
string-valued tags field is split on every run of non-word characters
(underscore counts as a word character, not a delimiter) and a
sequence-valued field contributes the stringification of each element; in
particular the catalog of the records tagged "辣,下饭" (string) and
["下饭", "家常"] (list) yields exactly the set {"辣", "下饭", "家常"}. -/
theorem c2_amended (c : List Record) (h : hasTagsColumn c = true) :
    (∀ t, t ∈ buildVocabulary (Option.some c) ↔ ∃ r ∈ c, t ∈ tagTokens (tagsOf r)) ∧
    List.Sorted (fun a b => strLe a b = true) (buildVocabulary (Option.some c)) ∧
    (buildVocabulary (Option.some c)).Nodup ∧
    (∀ t, t ∈ buildVocabulary (Option.some [recA, recB]) ↔
      (t = "辣" ∨ t = "下饭" ∨ t = "家常")) := by
  refine ⟨fun t => mem_buildVocabulary h t,
    buildVocabulary_sorted _, buildVocabulary_nodup _, ?_⟩
  intro t
  have hv : buildVocabulary (Option.some [recA, recB]) = ["下饭", "家常", "辣"] := by decide
  rw [hv]
  simp only [List.mem_cons, List.not_mem_nil, or_false]
  tauto

/-- C2, witness: the amended statement at the one-record catalog [recX]. -/
theorem c2_amended_witness :
    (∀ t, t ∈ buildVocabulary (Option.some [recX]) ↔ ∃ r ∈ [recX], t ∈ tagTokens (tagsOf r)) ∧
    List.Sorted (fun a b => strLe a b = true) (buildVocabulary (Option.some [recX])) ∧
    (buildVocabulary (Option.some [recX])).Nodup ∧
    (∀ t, t ∈ buildVocabulary (Option.some [recA, recB]) ↔
      (t = "辣" ∨ t = "下饭" ∨ t = "家常")) :=
  c2_amended [recX] (by decide)

/-- C3, counterexample: the claim says every normalized token is non-empty
and carries no surrounding whitespace for both source representations,
but the sequence path stringifies elements without trimming or dropping:
the list element " 家常 " enters the vocabulary with its spaces, and the
empty-string element enters it as the empty token. -/
theorem c3_counterexample :
    " 家常 " ∈ buildVocabulary (Option.some [recPad]) ∧
    (" 家常 ").toList.all (fun c => !(c.isWhitespace)) = false ∧
    "" ∈ buildVocabulary (Option.some [recEmptyTag]) := by
  refine ⟨by decide, by decide, by decide⟩

/-- C3, amended: every token a STRING-valued tags field contributes is
non-empty and consists of word characters only, hence carries no
whitespace at all; sequence-valued fields contribute raw stringified
elements, which may be empty or padded; the vocabulary still collapses
duplicates. -/
theorem c3_amended :
    (∀ s t, t ∈ tagTokens (PyVal.scalar (PyScalar.str s)) →
      t ≠ "" ∧ t.toList.all (fun c => !(c.isWhitespace)) = true) ∧
    (∀ cp, (buildVocabulary cp).Nodup) := by
  constructor
  · intro s t ht
    simp only [tagTokens, List.mem_map] at ht
    obtain ⟨run, hrun, rfl⟩ := ht
    have hs := wordRuns_sound isWordChar s.toList run hrun
    constructor
    · intro hemp
      have hnil : run = [] := by
        have := congrArg String.toList hemp
        simpa using this
      exact hs.1 hnil
    · rw [show (List.asString run).toList = run from rfl, List.all_eq_true]
      intro c hc
      simp [isWordChar_not_ws (hs.2 c hc)]
  · exact buildVocabulary_nodup

/-- C3, witness: the string "ab cd" yields the token "ab", non-empty and
whitespace-free. -/
theorem c3_amended_witness :
    "ab" ≠ "" ∧ "ab".toList.all (fun c => !(c.isWhitespace)) = true :=
  c3_amended.1 "ab cd" "ab" (by decide)

/-- C4, counterexample: the claim caps suggest at a maximum of 10 results,
but the popup filter adds every match — on an eleven-entry vocabulary the
empty query returns all eleven entries, not the first ten. -/
theorem c4_counterexample :
    (buildVocabulary (Option.some [recEleven])).length = 11 ∧
    suggestTags (buildVocabulary (Option.some [recEleven])) "" =
      buildVocabulary (Option.some [recEleven]) ∧
    ¬ (suggestTags (buildVocabulary (Option.some [recEleven])) "").length ≤ 10 := by
  refine ⟨by decide, by decide, by decide⟩

/-- C4, amended: suggest is a case-insensitive substring-containment
filter over the vocabulary with NO cap on the result count (the default
10 only bounds how many popup rows are visible at once): the empty query
returns the entire vocabulary in order, and a query contained in no entry
returns the empty sequence. -/
theorem c4_amended :
    (∀ vocab : List String, suggestTags vocab "" = vocab) ∧
    (∀ (vocab : List String) (q : String), pyStrip q ≠ "" →
      (∀ t ∈ vocab, listContains (pyLower (pyStrip q)).toList (pyLower t).toList = false) →
      suggestTags vocab q = []) := by
  constructor
  · intro vocab
    simp only [suggestTags]
    refine List.filter_eq_self.mpr ?_
    intro t _
    simp [show pyStrip "" = "" from rfl]
  · intro vocab q hq hall
    simp only [suggestTags]
    rw [List.filter_eq_nil_iff]
    intro t ht hcond
    rw [Bool.or_eq_true] at hcond
    rcases hcond with hc | hc
    · exact hq (by simpa using hc)
    · rw [hall t ht] at hc
      exact Bool.false_ne_true hc

/-- C4, witness: a query contained in no entry yields no suggestions. -/
theorem c4_amended_witness : suggestTags ["abc"] "xyz" = [] :=
  c4_amended.2 ["abc"] "xyz" (by decide) (by decide)

/-- C5: when dishes.txt exists in none of the candidate locations (nor at
the script-directory fallback the loader re-checks), load_dishes returns
the empty catalog rather than failing. -/
theorem c5_missing_resource (e : PyEnv)
    (h1 : ∀ d ∈ candidatesRaw e, e.pathExists (pathJoin d "dishes.txt") = false)
    (h2 : ∀ d ∈ e.scriptDir.toList, e.pathExists (pathJoin d "dishes.txt") = false) :
    load_dishes e = Except.ok [] := by
  have hf : findResource e "dishes.txt" = Option.none :=
    findFirst_none _ _ _ h1
  simp only [load_dishes, hf]
  cases hs : e.scriptDir with
  | none => rfl
  | some d =>
    have hd : e.pathExists (pathJoin d "dishes.txt") = false := h2 d (by simp [hs])
    simp [hd]

/-- C5, witness: a fully populated frozen environment with no file
anywhere loads the empty catalog. -/
theorem c5_missing_resource_witness : load_dishes env5 = Except.ok [] :=
  c5_missing_resource env5 (by decide) (by decide)

/-- C6, counterexample: the claim says a record whose tags field is ABSENT
contributes no tokens to the vocabulary, but pandas fills the missing
field with NaN, which the vocabulary loop stringifies: adding a record
without a tags field changes the vocabulary from ["x"] to ["nan", "x"]. -/
theorem c6_counterexample :
    buildVocabulary (Option.some [recX, recNoTags]) = ["nan", "x"] ∧
    buildVocabulary (Option.some [recX]) = ["x"] ∧
    "nan" ∈ buildVocabulary (Option.some [recX, recNoTags]) := by
  refine ⟨by decide, by decide, by decide⟩

/-- C6, amended: a record whose tags field is null is excluded from every
search result and contributes no vocabulary tokens; a record whose tags
field is absent (NaN in the DataFrame) is likewise excluded from every
search result but contributes the single token "nan"; either way the
record stays in the catalog. -/
theorem c6_amended (tag : String) (c : List Record) (r : Record) (e : PyEnv)
    (res : List Record) (hr : r ∈ c)
    (hv : tagsOf r = PyVal.scalar PyScalar.pyNone ∨ tagsOf r = PyVal.scalar PyScalar.nan)
    (hres : search_by_tag tag (Option.some c) e = Except.ok res) :
    r ∉ res ∧ r ∈ c ∧
    (tagsOf r = PyVal.scalar PyScalar.pyNone → tagTokens (tagsOf r) = []) ∧
    (tagsOf r = PyVal.scalar PyScalar.nan → tagTokens (tagsOf r) = ["nan"]) := by
  have hcol : hasTagsColumn c = true := by
    cases hc : hasTagsColumn c
    · simp [search_by_tag, searchFilter, hc] at hres
    · rfl
  have hres2 : res = c.filter (fun x => has_tag tag (tagsOf x)) := by
    simp only [search_by_tag, searchFilter, hcol, if_true] at hres
    exact (Except.ok.inj hres).symm
  have hfalse : has_tag tag (tagsOf r) = false := by
    rcases hv with h | h <;> rw [h] <;> rfl
  refine ⟨?_, hr, fun h => by rw [h]; rfl, fun h => by rw [h]; rfl⟩
  rw [hres2]
  intro habs
  have := (List.mem_filter.mp habs).2
  rw [hfalse] at this
  exact Bool.false_ne_true this

/-- C6, witness: the record with null tags is excluded from the (empty)
search result over the catalog holding only it. -/
theorem c6_amended_witness :
    recNull ∉ ([] : List Record) ∧ recNull ∈ [recNull] ∧
    (tagsOf recNull = PyVal.scalar PyScalar.pyNone → tagTokens (tagsOf recNull) = []) ∧
    (tagsOf recNull = PyVal.scalar PyScalar.nan → tagTokens (tagsOf recNull) = ["nan"]) :=
  c6_amended "t" [recNull] recNull env0 [] (by decide) (by decide) (by decide)

/-- The claim's first candidate category: the bundled/packaged resource
directory (_MEIPASS, considered only when the program runs frozen). -/
def bundledDirs (e : PyEnv) : List String :=
  if e.frozen then
    (match e.meipass with
     | Option.some m => if m = "" then [] else [m]
     | Option.none => [])
  else []

/-- The claim's second candidate category: the directories adjacent to the
running program (the executable's directory when frozen, the script's
directory when truthy). -/
def programDirs (e : PyEnv) : List String :=
  (if e.frozen then [e.exeDir] else [])
  ++ (match e.scriptDir with
      | Option.some d => if d = "" then [] else [d]
      | Option.none => [])

/-- C7: resource resolution tries the candidate locations in the claim's
priority order — bundled resource directory, then the directories adjacent
to the running program, then the current working directory — and returns
the joined path of the first location where the named file exists. -/
theorem c7_resolution_order (e : PyEnv) (name : String) :
    findResource e name =
      List.find? e.pathExists
        (((bundledDirs e ++ programDirs e ++ [e.cwd]).filter (fun d => !(d == ""))).map
          (fun d => pathJoin d name)) := by
  have hc : candidatesRaw e = bundledDirs e ++ programDirs e ++ [e.cwd] := by
    simp only [candidatesRaw, bundledDirs, programDirs]
    cases e.frozen <;> simp [List.append_assoc]
  rw [findResource, hc, findFirst_eq]

/-- C8, counterexample: the claim says a parsing failure surfaces a
LoadError carrying the offending path.  The code propagates the parser's
own exception and attaches nothing: two environments whose malformed
dishes.txt lives at the different paths /a/dishes.txt and /b/dishes.txt
produce the identical failure value, so the failure cannot carry the
offending path. -/
theorem c8_counterexample :
    findResource env8a "dishes.txt" = Option.some "/a/dishes.txt" ∧
    findResource env8b "dishes.txt" = Option.some "/b/dishes.txt" ∧
    load_dishes env8a = load_dishes env8b ∧
    load_dishes env8a = Except.error (LoadFailure.parseError "BAD") := by
  refine ⟨by decide, by decide, by decide, by decide⟩

/-- C8, amended: when the resolved resource exists but its content fails
to parse, load_dishes propagates the parse failure carrying the
underlying cause only — no dedicated LoadError type, no path attached —
and returns no records at all (no partial recovery). -/
theorem c8_amended (e : PyEnv) (p : String)
    (hfind : findResource e "dishes.txt" = Option.some p)
    (hparse : e.parse (e.content p) = Option.none) :
    load_dishes e = Except.error (LoadFailure.parseError (e.content p)) := by
  simp [load_dishes, hfind, hparse]

/-- C8, witness: the amended statement at the environment whose malformed
file lives at /a/dishes.txt. -/
theorem c8_amended_witness :
    load_dishes env8a = Except.error (LoadFailure.parseError (env8a.content "/a/dishes.txt")) :=
  c8_amended env8a "/a/dishes.txt" (by decide) (by decide)

/-- C9: calling search_by_tag with the catalog argument None first loads
the default catalog via load_dishes and searches that, behaving exactly
as the call over the freshly loaded catalog. -/
theorem c9_default_load (tag : String) (e : PyEnv) (c : List Record)
    (h : load_dishes e = Except.ok c) :
    search_by_tag tag Option.none e = search_by_tag tag (Option.some c) e := by
  simp [search_by_tag, h]

/-- C9, witness: over env9, whose dishes.txt parses to [recX], the
None-catalog call coincides with the explicit-catalog call. -/
theorem c9_default_load_witness :
    search_by_tag "x" Option.none env9 = search_by_tag "x" (Option.some [recX]) env9 :=
  c9_default_load "x" env9 [recX] (by decide)

/-- C10, counterexample: the claim says every tags value that is neither a
string nor an iterable contributes its stringification as a token, but a
null tags value is such a value and is skipped before the iteration is
ever attempted: it contributes nothing, not the token "None". -/
theorem c10_counterexample :
    tagTokens (PyVal.scalar PyScalar.pyNone) = [] ∧
    pyScalarStr PyScalar.pyNone = "None" ∧
    tagTokens (PyVal.scalar PyScalar.pyNone) ≠ [pyScalarStr PyScalar.pyNone] := by
  refine ⟨rfl, rfl, by decide⟩

/-- C10, amended: over any catalog with a tags column the search is total
— it returns Ok for every tag, treating any value on which the membership
test raises (None, NaN, a number) as a non-match — and during vocabulary
construction a non-null value that is neither a string nor an iterable
(NaN, a number) contributes its string representation as a single
untrimmed token, while null contributes nothing. -/
theorem c10_amended (tag : String) (c : List Record) (e : PyEnv)
    (h : hasTagsColumn c = true) :
    (∃ res, search_by_tag tag (Option.some c) e = Except.ok res) ∧
    has_tag tag (PyVal.scalar PyScalar.pyNone) = false ∧
    has_tag tag (PyVal.scalar PyScalar.nan) = false ∧
    (∀ n : Int, has_tag tag (PyVal.scalar (PyScalar.int n)) = false) ∧
    tagTokens (PyVal.scalar PyScalar.nan) = [pyScalarStr PyScalar.nan] ∧
    (∀ n : Int, tagTokens (PyVal.scalar (PyScalar.int n)) = [pyScalarStr (PyScalar.int n)]) ∧
    tagTokens (PyVal.scalar PyScalar.pyNone) = [] := by
  refine ⟨⟨c.filter (fun r => has_tag tag (tagsOf r)), ?_⟩,
    rfl, rfl, fun _ => rfl, rfl, fun _ => rfl, rfl⟩
  simp [search_by_tag, searchFilter, h]

/-- C10, witness: the amended statement at the one-record catalog [recX]. -/
theorem c10_amended_witness :
    (∃ res, search_by_tag "t" (Option.some [recX]) env0 = Except.ok res) ∧
    has_tag "t" (PyVal.scalar PyScalar.pyNone) = false ∧
    has_tag "t" (PyVal.scalar PyScalar.nan) = false ∧
    (∀ n : Int, has_tag "t" (PyVal.scalar (PyScalar.int n)) = false) ∧
    tagTokens (PyVal.scalar PyScalar.nan) = [pyScalarStr PyScalar.nan] ∧
    (∀ n : Int, tagTokens (PyVal.scalar (PyScalar.int n)) = [pyScalarStr (PyScalar.int n)]) ∧
    tagTokens (PyVal.scalar PyScalar.pyNone) = [] :=
  c10_amended "t" [recX] env0 (by decide)
